import Mathlib

/-!
Verification of the VMC-Static backend (Express/Mongoose server and its
static-user variant): credential store, password hashing, token
issuance/verification, the auth gate middleware, the bootstrap seeder and
the register/login/user endpoints, shallowly embedded in Lean.
-/

set_option maxHeartbeats 1000000

namespace VMC

/-- A stored user record, after the `userSchema` of the server
(`username`, hashed `password`, `name`, `role`, `department`) together with
the store-generated id (`_id` in the Mongoose variant, `id` in the
static-array variant). -/
structure User where
  id : Nat
  username : String
  password : String
  name : String
  role : String
  department : String
deriving DecidableEq, Repr

/-- The credential store: the `User` collection (or the `STATIC_USERS`
array), modelled as a list of user records. -/
abbrev Store := List User

/-- Lookup by username: models both `User.findOne with a username filter`
and `STATIC_USERS.find(user => user.username === username)`
(the `findUserByUsername` helper). -/
def findByUsername (store : Store) (username : String) : Option User :=
  store.find? (fun u => u.username == username)

/-- Lookup by id: models `User.findById` and
`STATIC_USERS.find(u => u.id === req.user.id)`. -/
def findById (store : Store) (id : Nat) : Option User :=
  store.find? (fun u => u.id == id)

/-- Model of the bcrypt library hash `bcrypt.hash(plain, 10)`: a salted
one-way transform. The salt is made explicit (bcrypt draws it at random);
the model keeps the plaintext recoverable only through `bcryptCompare`. -/
def bcryptHash (plain : String) (salt : Nat) : String :=
  "$2b$10$" ++ toString salt ++ "$" ++ plain

/-- Model of `bcrypt.compare(plain, hash)`: true exactly when the hash
ends in the salt separator followed by this plaintext, i.e. when the hash
was produced from this plaintext. Returns false on mismatch, never
throws. -/
def bcryptCompare (plain hash : String) : Bool :=
  hash.data.drop (hash.data.length - ('$' :: plain.data).length)
    == '$' :: plain.data

/-- The hard-coded signing secret `JWT_SECRET` from the server source. -/
def JWT_SECRET : String := "your-government-secret-key-change-in-production"

/-- The claim set signed at login: `id`, `username`, `role`
(`jwt.sign` payload). -/
structure Claims where
  id : Nat
  username : String
  role : String
deriving DecidableEq, Repr

/-- Model of a JWS/JWT value: either a structurally well-formed signed
token carrying its claims, the secret it was signed with, its issued-at
and expiry timestamps (seconds), or a malformed string that no verifier
accepts. -/
inductive Token where
  | signed (claims : Claims) (secret : String) (iat : Nat) (exp : Nat)
  | malformed (raw : String)
deriving DecidableEq, Repr

/-- Outcome of `jwt.verify`: decoded claims, a TokenExpiredError, or a
JsonWebTokenError (bad signature or malformed structure). -/
inductive VerifyResult where
  | ok (claims : Claims)
  | expired
  | invalid
deriving DecidableEq, Repr

/-- Model of the jsonwebtoken library `jwt.verify(token, secret)` at clock
time `now`: a malformed token or a signature under a different secret is
invalid; a structurally valid, correctly signed token is expired once the
clock reaches its `exp` claim, and otherwise decodes to its claims. -/
def jwtVerify (t : Token) (secret : String) (now : Nat) : VerifyResult :=
  match t with
  | Token.malformed _ => VerifyResult.invalid
  | Token.signed c s _ exp =>
    if s == secret then
      if exp ≤ now then VerifyResult.expired else VerifyResult.ok c
    else VerifyResult.invalid

/-- Model of `jwt.sign(payload, secret, expiresIn)` at clock time `now`:
issued-at `now`, expiry `now + expiresIn` seconds. -/
def jwtSign (c : Claims) (secret : String) (now expiresIn : Nat) : Token :=
  Token.signed c secret now (now + expiresIn)

/-- Seconds in the `24h` expiry the login endpoint passes to `jwt.sign`. -/
def dayInSeconds : Nat := 24 * 60 * 60

/-- The token issuer as composed at the login endpoint:
`jwt.sign(id, username, role, JWT_SECRET, expiresIn 24h)`. -/
def issue (id : Nat) (username role : String) (now : Nat) : Token :=
  jwtSign ⟨id, username, role⟩ JWT_SECRET now dayInSeconds

/-- JavaScript truthiness of an optional request-body string field:
`undefined` and the empty string are falsy. -/
def falsy : Option String → Bool
  | none => true
  | some s => s == ""

/-- Rendering of a user document to key/value pairs: models
`user.toObject()` (and the plain object of the static variant). -/
def toObject (u : User) : List (String × String) :=
  [("id", toString u.id), ("username", u.username), ("password", u.password),
   ("name", u.name), ("role", u.role), ("department", u.department)]

/-- Field removal by rest-destructuring
(`const (password, ...userWithoutPassword) = user`): every key except
`password` survives. The same filter models `.select("-password")`. -/
def stripPassword (fields : List (String × String)) : List (String × String) :=
  fields.filter (fun kv => kv.1 != "password")

/-- Response bodies the modelled endpoints produce. -/
inductive ResBody where
  | message (m : String)
  | loginSuccess (m : String) (token : Token) (user : List (String × String))
  | userBody (user : List (String × String))
deriving DecidableEq, Repr

/-- An HTTP response: status code plus JSON body. -/
structure HttpResponse where
  status : Nat
  body : ResBody
deriving DecidableEq, Repr

/-- The key list of the user object inside a response body, empty when the
body carries no user object. -/
def userFields : ResBody → List String
  | ResBody.loginSuccess _ _ u => u.map Prod.fst
  | ResBody.userBody u => u.map Prod.fst
  | ResBody.message _ => []

/-- A login request body: optional `username` and `password` fields. -/
structure LoginReq where
  username : Option String
  password : Option String
deriving DecidableEq, Repr

/-- The POST /api/login handler: 400 when either field is missing/empty,
401 `Invalid credentials` when the username is unknown, 401
`Invalid credentials` when `bcrypt.compare` rejects the password, else 200
with a fresh token and the user record with the password field stripped. -/
def loginHandler (store : Store) (now : Nat) (req : LoginReq) : HttpResponse :=
  if falsy req.username || falsy req.password then
    ⟨400, ResBody.message "Username and password are required"⟩
  else
    match findByUsername store (req.username.getD "") with
    | none => ⟨401, ResBody.message "Invalid credentials"⟩
    | some user =>
      if bcryptCompare (req.password.getD "") user.password then
        ⟨200, ResBody.loginSuccess "Login successful"
          (issue user.id user.username user.role now)
          (stripPassword (toObject user))⟩
      else ⟨401, ResBody.message "Invalid credentials"⟩

/-- Model of the JavaScript `String.prototype.split(given a single space
separator)` over the character list of the header: splits on every space,
keeping empty segments, and maps the empty string to one empty segment. -/
def splitSpaces : List Char → List (List Char)
  | [] => [[]]
  | c :: rest =>
    if c = ' ' then [] :: splitSpaces rest
    else
      match splitSpaces rest with
      | [] => [[c]]
      | g :: gs => (c :: g) :: gs

/-- Token extraction of the auth middleware:
`const token = authHeader && authHeader.split(on a space)[1]`, with JS
falsiness folded in — a missing header, a header with no second
space-separated segment, or an empty second segment all give no token. -/
def extractToken (authHeader : Option (List Char)) : Option (List Char) :=
  match authHeader with
  | none => none
  | some s =>
    match (splitSpaces s)[1]? with
    | none => none
    | some t => if t = [] then none else some t

/-- Outcome of the auth middleware: reject with 401, reject with 403, or
call `next()` with the decoded claims attached as `req.user`. -/
inductive GateResult where
  | reject401
  | reject403
  | proceed (claims : Claims)
deriving DecidableEq, Repr

/-- The `authenticateToken` middleware: no extractable token gives 401;
a token that fails `jwt.verify` (any error) gives 403; a verified token
attaches the decoded claims and proceeds. The verifier over raw token
strings is a parameter (`jwt.verify` specialised to `JWT_SECRET` and the
current clock). -/
def authenticateToken (authHeader : Option (List Char))
    (verifyTok : List Char → VerifyResult) : GateResult :=
  match extractToken authHeader with
  | none => GateResult.reject401
  | some tok =>
    match verifyTok tok with
    | VerifyResult.ok c => GateResult.proceed c
    | VerifyResult.expired => GateResult.reject403
    | VerifyResult.invalid => GateResult.reject403

/-- A protected route: `authenticateToken` composed in front of a handler,
producing the middleware error responses of the source on rejection. -/
def handleProtected (authHeader : Option (List Char))
    (verifyTok : List Char → VerifyResult)
    (handler : Claims → HttpResponse) : HttpResponse :=
  match authenticateToken authHeader verifyTok with
  | GateResult.reject401 => ⟨401, ResBody.message "Access token required"⟩
  | GateResult.reject403 => ⟨403, ResBody.message "Invalid or expired token"⟩
  | GateResult.proceed c => handler c

/-- The default admin account the seeder creates when absent, hashed at
the given salt. -/
def adminUser (salt : Nat) : User :=
  ⟨1, "admin", bcryptHash "government123" salt, "Administrator", "admin",
   "System Administration"⟩

/-- The default officer account the seeder creates when absent, hashed at
the given salt. -/
def officerUser (salt : Nat) : User :=
  ⟨2, "officer", bcryptHash "officer456" salt, "John Officer", "officer",
   "Public Services"⟩

/-- Number of stored records carrying a given username. -/
def countUsername (store : Store) (u : String) : Nat :=
  store.countP (fun x => x.username == u)

/-- Observable outcome of one run of `seedDefaultUsers`: the resulting
store, the plaintexts passed to `bcrypt.hash` during the run, the
usernames looked up via `findOne`, and whether the catch block ran. The
function always returns (the catch swallows every error), so a run never
aborts startup. -/
structure SeedResult where
  store : Store
  hashes : List String
  lookups : List String
  errorCaught : Bool
deriving DecidableEq, Repr

/-- Predicate injecting store-level create failures (I/O errors thrown by
`User.create`), by username. `noFail` is the failure-free store. -/
def noFail : String → Bool := fun _ => false

/-- Failure oracle making the creation of the admin record throw. -/
def failAdminCreate : String → Bool := fun u => u == "admin"

/-- The `seedDefaultUsers` bootstrap: both `findOne` lookups run first,
then inside one try block the admin record is hashed and created when the
admin lookup was empty, then the officer record likewise. A create that
throws jumps to the catch, which logs and returns: later statements of
the try block are skipped, but the run still returns normally. Hashing
happens before the corresponding create, so a failed create still counts
one hash. -/
def seedDefaultUsers (store : Store) (saltA saltO : Nat)
    (failCreate : String → Bool) : SeedResult :=
  let existingAdmin := findByUsername store "admin"
  let existingOfficer := findByUsername store "officer"
  if existingAdmin.isNone then
    if failCreate "admin" then
      ⟨store, ["government123"], ["admin", "officer"], true⟩
    else
      let store1 := store ++ [adminUser saltA]
      if existingOfficer.isNone then
        if failCreate "officer" then
          ⟨store1, ["government123", "officer456"], ["admin", "officer"], true⟩
        else
          ⟨store1 ++ [officerUser saltO], ["government123", "officer456"],
           ["admin", "officer"], false⟩
      else ⟨store1, ["government123"], ["admin", "officer"], false⟩
  else
    if existingOfficer.isNone then
      if failCreate "officer" then
        ⟨store, ["officer456"], ["admin", "officer"], true⟩
      else ⟨store ++ [officerUser saltO], ["officer456"], ["admin", "officer"],
            false⟩
    else ⟨store, [], ["admin", "officer"], false⟩

/-- Store-level errors: the unique index on `username` rejects a create
whose username already exists. -/
inductive StoreErr where
  | duplicateKey
deriving DecidableEq, Repr

/-- Model of `newUser.save()` against the collection with a unique index
on `username`: fails with a duplicate-key error when the username exists,
otherwise appends the record. -/
def createUser (store : Store) (u : User) : Except StoreErr Store :=
  if (findByUsername store u.username).isSome then
    Except.error StoreErr.duplicateKey
  else Except.ok (store ++ [u])

/-- A register request body: the five optional fields the endpoint
destructures. -/
structure RegisterReq where
  username : Option String
  password : Option String
  name : Option String
  role : Option String
  department : Option String
deriving DecidableEq, Repr

/-- The POST /api/register handler: 400 only when username or password is
missing/empty (the other three fields are not validated), then hashes the
password and saves; any error thrown by the save (in particular a
duplicate key) is caught and surfaced as 500, leaving the store as it
was. -/
def registerHandler (store : Store) (salt nextId : Nat) (req : RegisterReq) :
    HttpResponse × Store :=
  if falsy req.username || falsy req.password then
    (⟨400, ResBody.message "Username and password required"⟩, store)
  else
    let hashed := bcryptHash (req.password.getD "") salt
    let newUser : User := ⟨nextId, req.username.getD "", hashed,
      req.name.getD "", req.role.getD "", req.department.getD ""⟩
    match createUser store newUser with
    | Except.ok store2 =>
      (⟨201, ResBody.message "User registered successfully"⟩, store2)
    | Except.error _ =>
      (⟨500, ResBody.message "Internal server error"⟩, store)

/-- A register request missing the name, role and department fields while
username and password are present. -/
def reqMissingName : RegisterReq := ⟨some "alice", some "pw1", none, none, none⟩

/-- The GET /api/user handler body, run after `authenticateToken` has
attached the claims: looks the subject up by id and returns the record
with the password field excluded (`select` without password), or 404. -/
def getUserHandler (store : Store) (c : Claims) : HttpResponse :=
  match findById store c.id with
  | none => ⟨404, ResBody.message "User not found"⟩
  | some u => ⟨200, ResBody.userBody (stripPassword (toObject u))⟩

/-- A concrete token-string verifier used to instantiate the gate theorems
on closed inputs: one good token, one expired token, all else invalid. -/
def demoVerify (tok : List Char) : VerifyResult :=
  if tok = "good.token.sig".data then VerifyResult.ok ⟨1, "admin", "admin"⟩
  else if tok = "old.token.sig".data then VerifyResult.expired
  else VerifyResult.invalid

/-- A concrete handler used to instantiate the gate theorems on closed
inputs: echoes the authenticated username. -/
def demoHandler (c : Claims) : HttpResponse :=
  ⟨200, ResBody.userBody [("username", c.username)]⟩

end VMC

namespace VMC

/-- Splitting a string that contains no space yields that one segment. -/
lemma splitSpaces_of_no_space (l : List Char) (h : ' ' ∉ l) :
    splitSpaces l = [l] := by
  induction l with
  | nil => rfl
  | cons c rest ih =>
    have hc : ¬ c = ' ' := fun e => h (e ▸ List.mem_cons_self c rest)
    have hr : ' ' ∉ rest := fun m => h (List.mem_cons_of_mem _ m)
    simp [splitSpaces, hc, ih hr]

/-- Splitting `a ++ space ++ b` where `a` has no space prepends `a` as the
first segment. -/
lemma splitSpaces_append (a b : List Char) (h : ' ' ∉ a) :
    splitSpaces (a ++ ' ' :: b) = a :: splitSpaces b := by
  induction a with
  | nil => simp [splitSpaces]
  | cons c a ih =>
    have hc : ¬ c = ' ' := fun e => h (e ▸ List.mem_cons_self c a)
    have ha : ' ' ∉ a := fun m => h (List.mem_cons_of_mem _ m)
    simp [splitSpaces, hc, ih ha]

/-- C1: for every login request whose username matches no stored user, and
for every login request whose username matches a user but whose password
fails hash verification, the endpoint returns the identical response:
HTTP 401 with body message `Invalid credentials`. -/
theorem login_failures_indistinguishable
    (store store2 : Store) (now now2 : Nat) (u p u2 p2 : String) (usr : User)
    (hu : u ≠ "") (hp : p ≠ "") (hu2 : u2 ≠ "") (hp2 : p2 ≠ "")
    (hfind : findByUsername store u = none)
    (hfind2 : findByUsername store2 u2 = some usr)
    (hpw : bcryptCompare p2 usr.password = false) :
    loginHandler store now ⟨some u, some p⟩
      = ⟨401, ResBody.message "Invalid credentials"⟩
    ∧ loginHandler store2 now2 ⟨some u2, some p2⟩
      = ⟨401, ResBody.message "Invalid credentials"⟩
    ∧ loginHandler store now ⟨some u, some p⟩
      = loginHandler store2 now2 ⟨some u2, some p2⟩ := by
  have h1 : loginHandler store now ⟨some u, some p⟩
      = ⟨401, ResBody.message "Invalid credentials"⟩ := by
    simp [loginHandler, falsy, hu, hp, hfind]
  have h2 : loginHandler store2 now2 ⟨some u2, some p2⟩
      = ⟨401, ResBody.message "Invalid credentials"⟩ := by
    simp [loginHandler, falsy, hu2, hp2, hfind2, hpw]
  exact ⟨h1, h2, h1.trans h2.symm⟩

/-- Closed instance of `login_failures_indistinguishable`: an unknown
username against a one-user store, and a wrong password against that same
user, both yield 401 `Invalid credentials`. -/
theorem login_failures_indistinguishable_witness :
    loginHandler [⟨1, "admin", bcryptHash "government123" 7, "Administrator",
        "admin", "System Administration"⟩] 0 ⟨some "ghost", some "pw"⟩
      = ⟨401, ResBody.message "Invalid credentials"⟩
    ∧ loginHandler [⟨1, "admin", bcryptHash "government123" 7, "Administrator",
        "admin", "System Administration"⟩] 0 ⟨some "admin", some "wrong"⟩
      = ⟨401, ResBody.message "Invalid credentials"⟩ := by
  have h := login_failures_indistinguishable
    [⟨1, "admin", bcryptHash "government123" 7, "Administrator",
      "admin", "System Administration"⟩]
    [⟨1, "admin", bcryptHash "government123" 7, "Administrator",
      "admin", "System Administration"⟩]
    0 0 "ghost" "pw" "admin" "wrong"
    ⟨1, "admin", bcryptHash "government123" 7, "Administrator",
      "admin", "System Administration"⟩
    (by decide) (by decide) (by decide) (by decide)
    (by decide) (by decide) (by decide)
  exact ⟨h.1, h.2.1⟩

/-- C3: verifying, with the shared secret and immediately after issuance,
a token produced by `issue` from a subject id, username and role succeeds
and returns exactly those claims. -/
theorem issue_verify_roundtrip (id : Nat) (username role : String) (now : Nat) :
    jwtVerify (issue id username role now) JWT_SECRET now
      = VerifyResult.ok ⟨id, username, role⟩ := by
  simp [issue, jwtSign, jwtVerify, dayInSeconds]

/-- C2: the auth gate is a three-way branch. With no extractable bearer
token the response is 401 and the handler never runs (the response does
not depend on the handler); with a token whose verification fails
(invalid or expired) the response is 403 and the handler never runs; with
a verified token the handler runs on the decoded claims. -/
theorem authGate_three_way (h : Option (List Char))
    (vf : List Char → VerifyResult) (handler : Claims → HttpResponse) :
    (extractToken h = none →
      handleProtected h vf handler = ⟨401, ResBody.message "Access token required"⟩)
    ∧ (∀ tok, extractToken h = some tok →
        (vf tok = VerifyResult.invalid ∨ vf tok = VerifyResult.expired) →
        handleProtected h vf handler
          = ⟨403, ResBody.message "Invalid or expired token"⟩)
    ∧ (∀ tok c, extractToken h = some tok → vf tok = VerifyResult.ok c →
        handleProtected h vf handler = handler c) := by
  refine ⟨?_, ?_, ?_⟩
  · intro hx
    simp [handleProtected, authenticateToken, hx]
  · intro tok hx hbad
    rcases hbad with h1 | h1 <;> simp [handleProtected, authenticateToken, hx, h1]
  · intro tok c hx hok
    simp [handleProtected, authenticateToken, hx, hok]

/-- Closed instance of `authGate_three_way`: a request with no header is
answered 401, a request with a bad token 403, and a request with a good
token reaches the handler with the decoded identity. -/
theorem authGate_three_way_witness :
    handleProtected none demoVerify demoHandler
      = ⟨401, ResBody.message "Access token required"⟩
    ∧ handleProtected (some "Bearer bad.token.sig".data) demoVerify demoHandler
      = ⟨403, ResBody.message "Invalid or expired token"⟩
    ∧ handleProtected (some "Bearer good.token.sig".data) demoVerify demoHandler
      = demoHandler ⟨1, "admin", "admin"⟩ :=
  ⟨(authGate_three_way none demoVerify demoHandler).1 rfl,
   (authGate_three_way (some "Bearer bad.token.sig".data) demoVerify
      demoHandler).2.1 "bad.token.sig".data (by decide) (Or.inl (by decide)),
   (authGate_three_way (some "Bearer good.token.sig".data) demoVerify
      demoHandler).2.2 "good.token.sig".data ⟨1, "admin", "admin"⟩
      (by decide) (by decide)⟩

/-- C4: a token issued by `issue` verifies under the shared secret at any
time strictly before issuance plus 24 hours, fails as expired at any time
past issuance plus 24 hours, and a token signed under a different secret,
or a malformed token, fails as invalid. -/
theorem token_validity_window :
    (∀ (id : Nat) (u r : String) (iat t : Nat), t < iat + dayInSeconds →
      jwtVerify (issue id u r iat) JWT_SECRET t = VerifyResult.ok ⟨id, u, r⟩)
    ∧ (∀ (id : Nat) (u r : String) (iat t : Nat), iat + dayInSeconds < t →
        jwtVerify (issue id u r iat) JWT_SECRET t = VerifyResult.expired)
    ∧ (∀ (c : Claims) (s : String) (iat exp t : Nat), s ≠ JWT_SECRET →
        jwtVerify (Token.signed c s iat exp) JWT_SECRET t = VerifyResult.invalid)
    ∧ (∀ (raw : String) (t : Nat),
        jwtVerify (Token.malformed raw) JWT_SECRET t = VerifyResult.invalid) := by
  refine ⟨?_, ?_, ?_, ?_⟩
  · intro id u r iat t ht
    simp [issue, jwtSign, jwtVerify]
    omega
  · intro id u r iat t ht
    simp [issue, jwtSign, jwtVerify]
    omega
  · intro c s iat exp t hs
    simp [jwtVerify, hs]
  · intro raw t
    simp [jwtVerify]

/-- Closed instance of `token_validity_window`: a token issued at time 0
verifies at time 3600, is expired at time 86401, and a token under the
wrong secret, or a malformed one, is invalid. -/
theorem token_validity_window_witness :
    jwtVerify (issue 1 "admin" "admin" 0) JWT_SECRET 3600
      = VerifyResult.ok ⟨1, "admin", "admin"⟩
    ∧ jwtVerify (issue 1 "admin" "admin" 0) JWT_SECRET 86401
      = VerifyResult.expired
    ∧ jwtVerify (Token.signed ⟨1, "admin", "admin"⟩ "other-secret" 0 86400)
        JWT_SECRET 50 = VerifyResult.invalid
    ∧ jwtVerify (Token.malformed "not.a.jwt") JWT_SECRET 50
      = VerifyResult.invalid :=
  ⟨token_validity_window.1 1 "admin" "admin" 0 3600 (by decide),
   token_validity_window.2.1 1 "admin" "admin" 0 86401 (by decide),
   token_validity_window.2.2.1 ⟨1, "admin", "admin"⟩ "other-secret" 0 86400 50
     (by decide),
   token_validity_window.2.2.2 "not.a.jwt" 50⟩

/-- C10: the middleware never checks the scheme word of the Authorization
header. Any header of the form `scheme token` whose second segment
verifies proceeds, whatever the scheme word is; a header with no second
space-separated segment (a lone scheme word, or a bare token with no
scheme prefix) is rejected 401, not 403. -/
theorem authGate_ignores_scheme :
    (∀ (scheme tok : List Char) (vf : List Char → VerifyResult) (c : Claims),
      ' ' ∉ scheme → ' ' ∉ tok → tok ≠ [] → vf tok = VerifyResult.ok c →
      authenticateToken (some (scheme ++ ' ' :: tok)) vf = GateResult.proceed c)
    ∧ (∀ vf : List Char → VerifyResult,
        authenticateToken (some "Bearer".data) vf = GateResult.reject401)
    ∧ (∀ (tok : List Char) (vf : List Char → VerifyResult), ' ' ∉ tok →
        authenticateToken (some tok) vf = GateResult.reject401) := by
  refine ⟨?_, ?_, ?_⟩
  · intro scheme tok vf c hs ht hne hok
    have hsplit : splitSpaces (scheme ++ ' ' :: tok) = scheme :: [tok] := by
      rw [splitSpaces_append _ _ hs, splitSpaces_of_no_space _ ht]
    simp [authenticateToken, extractToken, hsplit, hne, hok]
  · intro vf
    rfl
  · intro tok vf ht
    simp [authenticateToken, extractToken, splitSpaces_of_no_space _ ht]

/-- Closed instance of `authGate_ignores_scheme`: a `Basic`-scheme header
carrying a good token proceeds; `Bearer` alone and a bare token are
rejected 401. -/
theorem authGate_ignores_scheme_witness :
    authenticateToken (some ("Basic".data ++ ' ' :: "good.token.sig".data))
      demoVerify = GateResult.proceed ⟨1, "admin", "admin"⟩
    ∧ authenticateToken (some "Bearer".data) demoVerify = GateResult.reject401
    ∧ authenticateToken (some "good.token.sig".data) demoVerify
      = GateResult.reject401 :=
  ⟨authGate_ignores_scheme.1 "Basic".data "good.token.sig".data demoVerify
     ⟨1, "admin", "admin"⟩ (by decide) (by decide) (by decide) (by decide),
   authGate_ignores_scheme.2.1 demoVerify,
   authGate_ignores_scheme.2.2 "good.token.sig".data demoVerify (by decide)⟩

/-- Absent username is equivalent to a zero record count for it. -/
lemma findByUsername_eq_none_iff (l : Store) (u : String) :
    findByUsername l u = none ↔ countUsername l u = 0 := by
  simp [findByUsername, countUsername, List.find?_eq_none, List.countP_eq_zero]

/-- A username with at least one record is found by lookup. -/
lemma findByUsername_isNone_false (l : Store) (u : String)
    (h : countUsername l u ≠ 0) : (findByUsername l u).isNone = false := by
  rw [Option.isNone_eq_false_iff, Option.isSome_iff_ne_none]
  intro hn
  exact h ((findByUsername_eq_none_iff l u).mp hn)

/-- Record counts add over store concatenation. -/
lemma countUsername_append (l1 l2 : Store) (u : String) :
    countUsername (l1 ++ l2) u = countUsername l1 u + countUsername l2 u := by
  simp [countUsername]

/-- The seeded admin record counts once as admin and never as officer. -/
lemma countUsername_adminUser (s : Nat) :
    countUsername [adminUser s] "admin" = 1
    ∧ countUsername [adminUser s] "officer" = 0 := by
  simp [countUsername, adminUser]

/-- The seeded officer record counts once as officer and never as admin. -/
lemma countUsername_officerUser (s : Nat) :
    countUsername [officerUser s] "officer" = 1
    ∧ countUsername [officerUser s] "admin" = 0 := by
  simp [countUsername, officerUser]

/-- When both default accounts exist, the seeder leaves the store alone,
hashes nothing, and reports no error. -/
lemma seed_skip (store : Store) (sA sO : Nat) (f : String → Bool)
    (hA : countUsername store "admin" ≠ 0)
    (hO : countUsername store "officer" ≠ 0) :
    seedDefaultUsers store sA sO f = ⟨store, [], ["admin", "officer"], false⟩ := by
  simp [seedDefaultUsers, findByUsername_isNone_false _ _ hA,
    findByUsername_isNone_false _ _ hO]

/-- One failure-free run of the seeder leaves exactly one record per
default account, provided the store starts with at most one of each. -/
lemma seed_noFail_counts (store : Store) (sA sO : Nat)
    (hA : countUsername store "admin" ≤ 1)
    (hO : countUsername store "officer" ≤ 1) :
    countUsername (seedDefaultUsers store sA sO noFail).store "admin" = 1
    ∧ countUsername (seedDefaultUsers store sA sO noFail).store "officer" = 1 := by
  rcases Nat.le_one_iff_eq_zero_or_eq_one.mp hA with hA0 | hA1
  · have hAn : (findByUsername store "admin").isNone = true := by
      rw [Option.isNone_iff_eq_none, findByUsername_eq_none_iff]
      exact hA0
    rcases Nat.le_one_iff_eq_zero_or_eq_one.mp hO with hO0 | hO1
    · have hOn : (findByUsername store "officer").isNone = true := by
        rw [Option.isNone_iff_eq_none, findByUsername_eq_none_iff]
        exact hO0
      simp [seedDefaultUsers, hAn, hOn, noFail, countUsername_append,
        hA0, hO0]
      constructor <;> simp [countUsername, adminUser, officerUser]
    · have hOn : (findByUsername store "officer").isNone = false :=
        findByUsername_isNone_false _ _ (by omega)
      simp [seedDefaultUsers, hAn, hOn, noFail, countUsername_append,
        hA0, hO1, (countUsername_adminUser sA).1, (countUsername_adminUser sA).2]
  · have hAn : (findByUsername store "admin").isNone = false :=
      findByUsername_isNone_false _ _ (by omega)
    rcases Nat.le_one_iff_eq_zero_or_eq_one.mp hO with hO0 | hO1
    · have hOn : (findByUsername store "officer").isNone = true := by
        rw [Option.isNone_iff_eq_none, findByUsername_eq_none_iff]
        exact hO0
      simp [seedDefaultUsers, hAn, hOn, noFail, countUsername_append,
        hA1, hO0, (countUsername_officerUser sO).1,
        (countUsername_officerUser sO).2]
    · have hOn : (findByUsername store "officer").isNone = false :=
        findByUsername_isNone_false _ _ (by omega)
      simp [seedDefaultUsers, hAn, hOn, hA1, hO1]

/-- C5: the bootstrap seeder is idempotent. From a store holding at most
one record per default account, running the seeder twice without failures
leaves exactly one record per default account, the second run changes
nothing, and the second run computes no password hash. -/
theorem seeder_idempotent (store : Store) (s1 s2 s3 s4 : Nat)
    (hA : countUsername store "admin" ≤ 1)
    (hO : countUsername store "officer" ≤ 1) :
    countUsername
      (seedDefaultUsers (seedDefaultUsers store s1 s2 noFail).store s3 s4
        noFail).store "admin" = 1
    ∧ countUsername
        (seedDefaultUsers (seedDefaultUsers store s1 s2 noFail).store s3 s4
          noFail).store "officer" = 1
    ∧ (seedDefaultUsers (seedDefaultUsers store s1 s2 noFail).store s3 s4
        noFail).store = (seedDefaultUsers store s1 s2 noFail).store
    ∧ (seedDefaultUsers (seedDefaultUsers store s1 s2 noFail).store s3 s4
        noFail).hashes = [] := by
  obtain ⟨c1A, c1O⟩ := seed_noFail_counts store s1 s2 hA hO
  have hskip := seed_skip (seedDefaultUsers store s1 s2 noFail).store s3 s4
    noFail (by omega) (by omega)
  rw [hskip]
  exact ⟨c1A, c1O, rfl, rfl⟩

/-- Closed instance of `seeder_idempotent`: seeding an empty store twice
yields one admin record, one officer record, an unchanged store on the
second run and no second hash. -/
theorem seeder_idempotent_witness :
    countUsername
      (seedDefaultUsers (seedDefaultUsers [] 3 4 noFail).store 5 6
        noFail).store "admin" = 1
    ∧ countUsername
        (seedDefaultUsers (seedDefaultUsers [] 3 4 noFail).store 5 6
          noFail).store "officer" = 1
    ∧ (seedDefaultUsers (seedDefaultUsers [] 3 4 noFail).store 5 6
        noFail).store = (seedDefaultUsers [] 3 4 noFail).store
    ∧ (seedDefaultUsers (seedDefaultUsers [] 3 4 noFail).store 5 6
        noFail).hashes = [] :=
  seeder_idempotent [] 3 4 5 6 (by decide) (by decide)

/-- Counterexample to C6 as stated: on an empty store, when creating the
admin record throws, the run catches the error — but the officer account,
though looked up, is never seeded in that run: the resulting store holds
no officer record. -/
theorem seeder_admin_failure_counterexample :
    (seedDefaultUsers [] 0 0 failAdminCreate).errorCaught = true
    ∧ (seedDefaultUsers [] 0 0 failAdminCreate).lookups = ["admin", "officer"]
    ∧ countUsername (seedDefaultUsers [] 0 0 failAdminCreate).store "officer"
      = 0 := by
  decide

/-- C6 amended: a failure creating the admin account is caught, so the run
returns normally and startup is not aborted, and the officer account has
already been looked up; but because one try block spans both accounts, the
failure skips the officer create, leaving the store unchanged for that
run, with only the admin password hashed. -/
theorem seeder_admin_failure_caught (store : Store) (sA sO : Nat)
    (hA : findByUsername store "admin" = none) :
    (seedDefaultUsers store sA sO failAdminCreate).errorCaught = true
    ∧ (seedDefaultUsers store sA sO failAdminCreate).store = store
    ∧ (seedDefaultUsers store sA sO failAdminCreate).lookups
      = ["admin", "officer"]
    ∧ (seedDefaultUsers store sA sO failAdminCreate).hashes
      = ["government123"] := by
  simp [seedDefaultUsers, hA, failAdminCreate]

/-- Closed instance of `seeder_admin_failure_caught` on the empty store. -/
theorem seeder_admin_failure_caught_witness :
    (seedDefaultUsers [] 7 8 failAdminCreate).errorCaught = true
    ∧ (seedDefaultUsers [] 7 8 failAdminCreate).store = []
    ∧ (seedDefaultUsers [] 7 8 failAdminCreate).lookups = ["admin", "officer"]
    ∧ (seedDefaultUsers [] 7 8 failAdminCreate).hashes = ["government123"] :=
  seeder_admin_failure_caught [] 7 8 (by decide)

/-- Stripping the password field really removes the password key from any
serialized user record. -/
lemma password_not_in_strip (u : User) :
    "password" ∉ (stripPassword (toObject u)).map Prod.fst := by
  simp [stripPassword, toObject]

/-- C7: no response of the login endpoint or of the current-user endpoint
carries a user object with a password field: the login success strips the
password by destructuring, the user fetch excludes it in the query. -/
theorem password_never_serialized (store : Store) (now : Nat) (req : LoginReq)
    (c : Claims) :
    "password" ∉ userFields (loginHandler store now req).body
    ∧ "password" ∉ userFields (getUserHandler store c).body := by
  constructor
  · unfold loginHandler
    split
    · simp [userFields]
    · split
      · simp [userFields]
      · split
        · simpa [userFields] using password_not_in_strip _
        · simp [userFields]
  · unfold getUserHandler
    split
    · simp [userFields]
    · simpa [userFields] using password_not_in_strip _

/-- Counterexample to C8 as stated: a register request carrying username
and password but missing the name, role and department fields is not
rejected with 400 — it is accepted with 201. -/
theorem register_missing_name_still_201 :
    (registerHandler [] 0 1 reqMissingName).1.status = 201
    ∧ reqMissingName.name = none
    ∧ (registerHandler [] 0 1 reqMissingName).1.status ≠ 400 := by
  decide

/-- C8 amended: the register endpoint returns 400 exactly for a missing or
empty username or password (the name, role and department fields are not
validated), and with username and password present and a fresh username it
responds 201 with a message body. -/
theorem register_validates_username_password (store : Store) (salt nid : Nat)
    (req : RegisterReq) :
    ((falsy req.username || falsy req.password) = true →
      registerHandler store salt nid req
        = (⟨400, ResBody.message "Username and password required"⟩, store))
    ∧ ((falsy req.username || falsy req.password) = false →
        (registerHandler store salt nid req).1.status ≠ 400)
    ∧ (∀ u p, req.username = some u → u ≠ "" → req.password = some p →
        p ≠ "" → findByUsername store u = none →
        (registerHandler store salt nid req).1
          = ⟨201, ResBody.message "User registered successfully"⟩) := by
  refine ⟨?_, ?_, ?_⟩
  · intro h
    simp [registerHandler, h]
  · intro h
    simp only [registerHandler, h, Bool.false_eq_true, if_false]
    split <;> simp
  · intro u p hu hune hp hpne hfind
    have hcreate : createUser store ⟨nid, u, bcryptHash p salt,
        req.name.getD "", req.role.getD "", req.department.getD ""⟩
        = Except.ok (store ++ [⟨nid, u, bcryptHash p salt, req.name.getD "",
            req.role.getD "", req.department.getD ""⟩]) := by
      simp [createUser, hfind]
    simp [registerHandler, falsy, hu, hp, hune, hpne, hcreate]

/-- Closed instance of `register_validates_username_password`: a missing
password gives 400, and a fresh registration gives 201. -/
theorem register_validates_username_password_witness :
    registerHandler [] 0 1 ⟨some "alice", none, some "Alice", some "clerk",
        some "Records"⟩
      = (⟨400, ResBody.message "Username and password required"⟩, [])
    ∧ (registerHandler [] 0 1 ⟨some "alice", some "pw1", some "Alice",
        some "clerk", some "Records"⟩).1
      = ⟨201, ResBody.message "User registered successfully"⟩ :=
  ⟨(register_validates_username_password [] 0 1 ⟨some "alice", none,
      some "Alice", some "clerk", some "Records"⟩).1 (by decide),
   (register_validates_username_password [] 0 1 ⟨some "alice", some "pw1",
      some "Alice", some "clerk", some "Records"⟩).2.2 "alice" "pw1" rfl
      (by decide) rfl (by decide) (by decide)⟩

/-- C9: registering an already-present username makes the store create
fail with a duplicate-key error, which the endpoint surfaces as 500, and
the store — in particular the existing record — is left unchanged. -/
theorem register_duplicate_surfaced_500 (store : Store) (salt nid : Nat)
    (u p n r d : String) (usr : User)
    (hu : u ≠ "") (hp : p ≠ "")
    (hfind : findByUsername store u = some usr) :
    registerHandler store salt nid ⟨some u, some p, some n, some r, some d⟩
      = (⟨500, ResBody.message "Internal server error"⟩, store)
    ∧ createUser store ⟨nid, u, bcryptHash p salt, n, r, d⟩
      = Except.error StoreErr.duplicateKey := by
  have hcreate : createUser store ⟨nid, u, bcryptHash p salt, n, r, d⟩
      = Except.error StoreErr.duplicateKey := by
    simp [createUser, hfind]
  refine ⟨?_, hcreate⟩
  simp [registerHandler, falsy, hu, hp, hcreate]

/-- Closed instance of `register_duplicate_surfaced_500`: re-registering
the admin username against a store already holding it yields 500 and the
store is unchanged. -/
theorem register_duplicate_surfaced_500_witness :
    registerHandler [⟨1, "admin", bcryptHash "government123" 2,
        "Administrator", "admin", "System Administration"⟩] 3 9
      ⟨some "admin", some "newpw", some "X", some "admin", some "Y"⟩
      = (⟨500, ResBody.message "Internal server error"⟩,
         [⟨1, "admin", bcryptHash "government123" 2, "Administrator",
           "admin", "System Administration"⟩])
    ∧ createUser [⟨1, "admin", bcryptHash "government123" 2, "Administrator",
        "admin", "System Administration"⟩]
        ⟨9, "admin", bcryptHash "newpw" 3, "X", "admin", "Y"⟩
      = Except.error StoreErr.duplicateKey :=
  register_duplicate_surfaced_500
    [⟨1, "admin", bcryptHash "government123" 2, "Administrator", "admin",
      "System Administration"⟩] 3 9 "admin" "newpw" "X" "admin" "Y"
    ⟨1, "admin", bcryptHash "government123" 2, "Administrator", "admin",
      "System Administration"⟩
    (by decide) (by decide) (by decide)

end VMC
